import Mathlib

/-!
Verification of the Fersch 3D backend core: the STL mesh volume extractor
(`stl_volume.py`) and the quote calculator (`quote_engine.py`).

The Python code is shallowly embedded: Python floats are modelled as rationals
(`ℚ`), byte payloads as `List Nat` (each entry one byte value), Python
dictionaries as functions into `Option`, and the one fallible entry point
(`compute_quote`, which can raise) as an `Except`-valued function.

Two runtime behaviours of the host language are treated as external
primitives rather than re-implemented:
  * Python's text float-literal parser (`float(str)`), used by the ASCII STL
    vertex parser, is abstracted as a parameter `pyFloat : List Nat → Option ℚ`
    (`none` models a `ValueError`); every theorem quantifies over it.
  * IEEE-754 binary32 payload values that denote infinities or NaNs
    (exponent field 255) have no rational counterpart and are decoded as 0;
    no claim below depends on such payloads.
-/

namespace Fersch3D

/-! ## stl_volume.py -/

/-- One mesh vertex: three coordinates (x, y, z) in millimetres. -/
abbrev Vertex : Type := ℚ × ℚ × ℚ

/-- One triangular facet: an ordered triple of vertices (v1, v2, v3). -/
abbrev Facet : Type := Vertex × Vertex × Vertex

/-- Embedding of `signed_tetrahedron_volume` (stl_volume.py lines 88-103):
signed volume of the tetrahedron formed by the three vertices and the origin,
`dot(v1, cross(v2, v3)) / 6`. -/
def signed_tetrahedron_volume (v1 v2 v3 : Vertex) : ℚ :=
  let cx := v2.2.1 * v3.2.2 - v2.2.2 * v3.2.1
  let cy := v2.2.2 * v3.1 - v2.1 * v3.2.2
  let cz := v2.1 * v3.2.1 - v2.2.1 * v3.1
  let dot := v1.1 * cx + v1.2.1 * cy + v1.2.2 * cz
  dot / 6

/-- Accumulation of `total_volume_mm3 += signed_tetrahedron_volume(v1, v2, v3)`
over a list of facets (the loop bodies of `compute_volume_and_bbox`). -/
def sumSignedVolumes (fs : List Facet) : ℚ :=
  fs.foldl (fun acc f => acc + signed_tetrahedron_volume f.1 f.2.1 f.2.2) 0

/-- Final volume step of `compute_volume_and_bbox` (line 171):
`volume_ml = abs(total_volume_mm3) / 1000.0`. -/
def volumeFromFacets (fs : List Facet) : ℚ :=
  |sumSignedVolumes fs| / 1000

/-- Running bounding-box state: the six min/max trackers of
`compute_volume_and_bbox`.  The Python code initialises them to ±infinity;
here the not-yet-seen-a-vertex state is `none` (see `bboxUpdate`). -/
structure Bbox where
  min_x : ℚ
  min_y : ℚ
  min_z : ℚ
  max_x : ℚ
  max_y : ℚ
  max_z : ℚ
  deriving DecidableEq

/-- One bounding-box update step (`min_x = min(min_x, x)` etc. in both
parsing loops of `compute_volume_and_bbox`). -/
def bboxUpdate (b : Option Bbox) (v : Vertex) : Option Bbox :=
  match b with
  | none => some ⟨v.1, v.2.1, v.2.2, v.1, v.2.1, v.2.2⟩
  | some b => some ⟨min b.min_x v.1, min b.min_y v.2.1, min b.min_z v.2.2,
                    max b.max_x v.1, max b.max_y v.2.1, max b.max_z v.2.2⟩

/-- Bounding box accumulated over a vertex list (ASCII path: every parsed
vertex updates the bounds, whether or not it completes a facet). -/
def bboxOfVertices (vs : List Vertex) : Option Bbox :=
  vs.foldl bboxUpdate none

/-- Bounding box accumulated over processed facets (binary path: the three
vertices of each processed facet update the bounds). -/
def bboxOfFacets (fs : List Facet) : Option Bbox :=
  fs.foldl (fun b f => bboxUpdate (bboxUpdate (bboxUpdate b f.1) f.2.1) f.2.2) none

/-- Embedding of Python `sorted([length, width, height], reverse=True)` for
three rationals: returns the triple in non-increasing order. -/
def sort3Desc (a b c : ℚ) : ℚ × ℚ × ℚ :=
  let p1 := if a < b then (b, a) else (a, b)
  let p2 := if p1.2 < c then (c, p1.2) else (p1.2, c)
  let p3 := if p1.1 < p2.1 then (p2.1, p1.1) else (p1.1, p2.1)
  (p3.1, p3.2, p2.2)

/-- Dimension extraction of `compute_volume_and_bbox` (lines 172-178):
per-axis extent `max - min` floored at zero, then sorted descending.
The `none` case corresponds to the Python ±infinity initial values never
being updated (no vertex seen), where every `max_* > min_*` test fails. -/
def bboxDims (b : Option Bbox) : ℚ × ℚ × ℚ :=
  match b with
  | none => (0, 0, 0)
  | some b =>
      let length := if b.min_x < b.max_x then b.max_x - b.min_x else 0
      let width := if b.min_y < b.max_y then b.max_y - b.min_y else 0
      let height := if b.min_z < b.max_z then b.max_z - b.min_z else 0
      sort3Desc length width height

/-- ASCII lowercasing of one byte, as done by Python `bytes.lower()` /
`str.lower()` on ASCII data. -/
def lowerByte (b : Nat) : Nat :=
  if 65 ≤ b ∧ b ≤ 90 then b + 32 else b

/-- The byte string `b"solid"`. -/
def solidMarker : List Nat := [115, 111, 108, 105, 100]

/-- The byte string `b"facet"`. -/
def facetToken : List Nat := [102, 97, 99, 101, 116]

/-- The byte string `b"vertex"`. -/
def vertexMarker : List Nat := [118, 101, 114, 116, 101, 120]

/-- Whether `needle` occurs at the start of `haystack` (Python
`bytes.startswith` / `str.startswith`). -/
def startsWithSeq : List Nat → List Nat → Bool
  | [], _ => true
  | _ :: _, [] => false
  | a :: as, b :: bs => a == b && startsWithSeq as bs

/-- Whether `needle` occurs contiguously anywhere in `haystack` (Python
`needle in haystack` on bytes). -/
def containsSeq (needle : List Nat) : List Nat → Bool
  | [] => needle.isEmpty
  | b :: bs => startsWithSeq needle (b :: bs) || containsSeq needle bs

/-- The two STL wire formats. -/
inductive StlFormat where
  | text
  | binary
  deriving DecidableEq

/-- Embedding of the format sniff of `compute_volume_and_bbox` (line 129):
`is_ascii = data[:5].lower() == b"solid" and b"facet" in data[:200]`. -/
def detectFormat (data : List Nat) : StlFormat :=
  if ((data.take 5).map lowerByte == solidMarker)
      && containsSeq facetToken (data.take 200) then .text else .binary

/-- Little-endian unsigned integer from a byte list (Python
`struct.unpack("<I", ...)` for a 4-byte list). -/
def bytesToNatLE (l : List Nat) : Nat :=
  l.foldr (fun b acc => b % 256 + 256 * acc) 0

/-- Exact value of a little-endian IEEE-754 binary32 from its four bytes
(Python `struct.unpack("<f", ...)`).  Exponent field 255 (infinities, NaNs)
has no rational value and is mapped to 0; subnormals and normals are exact. -/
def decodeF32LE (b0 b1 b2 b3 : Nat) : ℚ :=
  let bits : ℕ := b0 % 256 + 256 * (b1 % 256) + 65536 * (b2 % 256) + 16777216 * (b3 % 256)
  let sign : ℚ := if bits / 2 ^ 31 % 2 = 1 then -1 else 1
  let e : ℕ := bits / 2 ^ 23 % 256
  let m : ℕ := bits % 2 ^ 23
  if e = 0 then sign * (m : ℚ) * (2 : ℚ) ^ (-(149 : ℤ))
  else if e = 255 then 0
  else sign * ((2 ^ 23 + m : ℕ) : ℚ) * (2 : ℚ) ^ ((e : ℤ) - 150)

/-- Binary32 value at byte offset `off` of a chunk (missing bytes read as 0;
never exercised, since `parse_binary_facets` only decodes full 50-byte
chunks). -/
def decodeF32At (chunk : List Nat) (off : Nat) : ℚ :=
  decodeF32LE (chunk.getD off 0) (chunk.getD (off + 1) 0)
    (chunk.getD (off + 2) 0) (chunk.getD (off + 3) 0)

/-- Decoding of one 50-byte binary facet record (stl_volume.py lines 78-85):
12 bytes of normal are skipped, then three vertices of three binary32 each. -/
def decodeFacet (chunk : List Nat) : Facet :=
  ((decodeF32At chunk 12, decodeF32At chunk 16, decodeF32At chunk 20),
   (decodeF32At chunk 24, decodeF32At chunk 28, decodeF32At chunk 32),
   (decodeF32At chunk 36, decodeF32At chunk 40, decodeF32At chunk 44))

/-- Embedding of `parse_binary_facets` (stl_volume.py lines 57-85): cut the
payload into 50-byte records, dropping a trailing incomplete record. -/
def parse_binary_facets (data : List Nat) : List Facet :=
  if _h : data.length < 50 then []
  else decodeFacet (data.take 50) :: parse_binary_facets (data.drop 50)
termination_by data.length
decreasing_by
  simp only [List.length_drop]
  omega

/-- The `count >= num_triangles` break of the binary loop in
`compute_volume_and_bbox` (lines 157-170): after processing a facet the
counter is incremented and compared against the declared triangle count. -/
def binaryTakeAux (num : Nat) (count : Nat) : List Facet → List Facet
  | [] => []
  | f :: rest => f :: (if count + 1 ≥ num then [] else binaryTakeAux num (count + 1) rest)

/-- Facets actually processed by the binary loop, given the declared count. -/
def binaryTake (num : Nat) (fs : List Facet) : List Facet :=
  binaryTakeAux num 0 fs

/-- Whitespace bytes recognised by Python `str.strip()` / `str.split()`
(ASCII subset; exotic Unicode whitespace never reaches vertex parsing in the
payloads the claims quantify over). -/
def isSpaceByte (b : Nat) : Bool :=
  b == 32 || b == 9 || b == 10 || b == 11 || b == 12 || b == 13

/-- Helper for `splitLinesBytes`: accumulates the current line (reversed). -/
def splitLinesAux : List Nat → List Nat → List (List Nat)
  | [], acc => if acc.isEmpty then [] else [acc.reverse]
  | 13 :: 10 :: rest, acc => acc.reverse :: splitLinesAux rest []
  | 13 :: rest, acc => acc.reverse :: splitLinesAux rest []
  | 10 :: rest, acc => acc.reverse :: splitLinesAux rest []
  | b :: rest, acc => splitLinesAux rest (b :: acc)

/-- Byte-level embedding of Python `str.splitlines()` over the decoded file
content: lines are split at LF, CR and CRLF, and a trailing terminator does
not produce an empty final line. -/
def splitLinesBytes (data : List Nat) : List (List Nat) :=
  splitLinesAux data []

/-- Python `str.strip()`: drop leading and trailing whitespace. -/
def stripBytes (l : List Nat) : List Nat :=
  ((l.dropWhile isSpaceByte).reverse.dropWhile isSpaceByte).reverse

/-- Helper for `splitWS`: split on maximal whitespace runs, no empty tokens. -/
def splitWSAux : List Nat → List Nat → List (List Nat)
  | [], acc => if acc.isEmpty then [] else [acc.reverse]
  | b :: rest, acc =>
      if isSpaceByte b then
        if acc.isEmpty then splitWSAux rest []
        else acc.reverse :: splitWSAux rest []
      else splitWSAux rest (b :: acc)

/-- Python `str.split()` with no arguments: whitespace-run tokenisation. -/
def splitWS (l : List Nat) : List (List Nat) :=
  splitWSAux l []

/-- Embedding of the per-line body of `parse_ascii_vertices` (stl_volume.py
lines 44-54): strip the line, keep it only if its lowercase form starts with
`vertex`, then parse tokens 1-3 as floats; any missing token (IndexError) or
unparsable token (ValueError) silently skips the line.  `pyFloat` abstracts
Python's `float(str)` literal parser. -/
def lineVertex (pyFloat : List Nat → Option ℚ) (line : List Nat) : Option Vertex :=
  let s := stripBytes line
  if startsWithSeq vertexMarker (s.map lowerByte) then
    match splitWS s with
    | _ :: p1 :: p2 :: p3 :: _ =>
        match pyFloat p1, pyFloat p2, pyFloat p3 with
        | some x, some y, some z => some (x, y, z)
        | _, _, _ => none
    | _ => none
  else none

/-- Embedding of `parse_ascii_vertices` (stl_volume.py lines 32-54). -/
def parse_ascii_vertices (pyFloat : List Nat → Option ℚ)
    (lines : List (List Nat)) : List Vertex :=
  lines.filterMap (lineVertex pyFloat)

/-- Grouping of parsed vertices into facets, three at a time, as done by the
`len(vertices) == 3` buffer of the ASCII loop; a trailing group of fewer than
three vertices yields no facet. -/
def facetsOfVertices : List Vertex → List Facet
  | v1 :: v2 :: v3 :: rest => (v1, v2, v3) :: facetsOfVertices rest
  | _ => []

/-- Embedding of `compute_volume_and_bbox` (stl_volume.py lines 116-178) over
an in-memory payload.  The file read itself is an external concern; the
function is total — the extractor never raises on payload content. -/
def compute_volume_and_bbox (pyFloat : List Nat → Option ℚ)
    (data : List Nat) : ℚ × (ℚ × ℚ × ℚ) :=
  match detectFormat data with
  | .text =>
      let vs := parse_ascii_vertices pyFloat (splitLinesBytes data)
      (volumeFromFacets (facetsOfVertices vs), bboxDims (bboxOfVertices vs))
  | .binary =>
      if data.length < 84 then (0, (0, 0, 0))
      else
        let num_triangles := bytesToNatLE ((data.drop 80).take 4)
        let facets := binaryTake num_triangles (parse_binary_facets (data.drop 84))
        (volumeFromFacets facets, bboxDims (bboxOfFacets facets))

/-- Embedding of `compute_volume_ml` (stl_volume.py lines 106-113). -/
def compute_volume_ml (pyFloat : List Nat → Option ℚ) (data : List Nat) : ℚ :=
  (compute_volume_and_bbox pyFloat data).1

/-! ## quote_engine.py -/

/-- The pricing state of a loaded `QuoteEngine` as `compute_quote` consumes
it: dictionaries are modelled as functions into `Option`, the tier tables as
threshold/value pair lists.  (`materials` maps a name to its
`price_per_ml_with_loss`, `type_pieces` to its `factor`, `typologies` to its
`bag_price`, mirroring the one payload field of each dataclass.) -/
structure Config where
  materials : String → Option ℚ
  type_pieces : String → Option ℚ
  typologies : String → Option ℚ
  markup_table : List (ℚ × ℚ)
  packaging_table : List (ℚ × ℚ)
  post_rate : ℚ
  finish_rate : ℚ
  tva_rate : ℚ
  machine_hour_rate : ℚ
  machine_time_per_ml : ℚ
  shipping_retrait : ℚ
  shipping_delivery : ℚ
  material_support_percent : String → Option ℚ
  material_print_speed : String → Option ℚ
  time_factor : ℚ

/-- The quote breakdown dictionary returned by `compute_quote`
(quote_engine.py lines 344-362). -/
structure Breakdown where
  material_cost : ℚ
  machine_cost : ℚ
  base_cost : ℚ
  post_cost : ℚ
  finish_cost : ℚ
  painting_cost : ℚ
  total_cost_before_markup : ℚ
  markup_factor : ℚ
  price_ht_plate : ℚ
  packaging_cost : ℚ
  bag_cost : ℚ
  shipping_cost : ℚ
  total_ht : ℚ
  vat : ℚ
  total_ttc : ℚ
  volume_with_supports_ml : ℚ
  print_time_minutes : ℚ
  deriving DecidableEq

/-- The exceptions `compute_quote` can raise: `ValueError("Unknown material
...")` for an unknown material key, and Python's `ZeroDivisionError` when the
dimension-based time estimate divides by a zero print speed. -/
inductive QuoteError where
  | unknownMaterial (name : String)
  | zeroDivisionError
  deriving DecidableEq

/-- The quantity clamp of `compute_quote` (lines 284-285): `if quantity < 1:
quantity = 1`. -/
def clampQuantity (quantity : ℤ) : ℤ :=
  if quantity < 1 then 1 else quantity

/-- The shared loop shape of `_get_markup_factor` and `_get_packaging_cost`
(quote_engine.py lines 234-252): walk the table in order, remembering the
value of every entry whose threshold is ≤ the probe, and stop at the first
entry whose threshold exceeds it. -/
def stepLoop (acc : ℚ) (v : ℚ) : List (ℚ × ℚ) → ℚ
  | [] => acc
  | (ml_min, f) :: rest => if ml_min ≤ v then stepLoop f v rest else acc

/-- Embedding of `_get_markup_factor` (lines 234-242): default factor 1.0. -/
def _get_markup_factor (cfg : Config) (volume_ml : ℚ) : ℚ :=
  stepLoop 1 volume_ml cfg.markup_table

/-- Embedding of `_get_packaging_cost` (lines 244-252): default price 0.0. -/
def _get_packaging_cost (cfg : Config) (total_volume_ml : ℚ) : ℚ :=
  stepLoop 0 total_volume_ml cfg.packaging_table

/-- The print speed in mm/s used by the dimension-based time estimate
(quote_engine.py lines 306-310): the configured per-material value is in
tenths of mm/s and is divided by 10; an absent entry defaults to 1 mm/s. -/
def speed_mm_s (cfg : Config) (material_name : String) : ℚ :=
  match cfg.material_print_speed material_name with
  | none => 1
  | some speed_tenth => speed_tenth / 10

/-- Machine-time estimate of `compute_quote` (lines 302-316).  When
`largest_dimension_mm` is given, Python computes
`(largest_dimension_mm * time_factor) / speed_mm_s`, which raises
`ZeroDivisionError` when the speed is zero; otherwise the volume-based
fallback `volume_with_supports * machine_time_per_ml * type_factor`. -/
def machineTimeHours (cfg : Config) (material_name : String)
    (volume_with_supports_ml type_factor : ℚ)
    (largest_dimension_mm : Option ℚ) : Except QuoteError ℚ :=
  match largest_dimension_mm with
  | some d =>
      if speed_mm_s cfg material_name = 0 then .error .zeroDivisionError
      else .ok (d * cfg.time_factor / speed_mm_s cfg material_name / 3600)
  | none => .ok (volume_with_supports_ml * cfg.machine_time_per_ml * type_factor)

/-- The success-path breakdown of `compute_quote` (lines 284-362), given the
resolved material price and machine time.  Every field is computed exactly as
in the source, in the source's order. -/
def quoteBreakdown (cfg : Config) (volume_ml : ℚ)
    (type_piece_name typology_name : String) (quantity : ℤ)
    (shipping_method : String) (add_painting : Bool) (support_percent : ℚ)
    (price_per_ml_with_loss machine_time_hours : ℚ) : Breakdown :=
  let q : ℤ := clampQuantity quantity
  let type_factor := (cfg.type_pieces type_piece_name).getD 1
  let bag_price := (cfg.typologies typology_name).getD 0
  let eff_volume_ml := volume_ml * (q : ℚ)
  let volume_with_supports_ml := eff_volume_ml * (1 + support_percent / 100)
  let material_cost := volume_with_supports_ml * price_per_ml_with_loss * type_factor
  let machine_cost := machine_time_hours * cfg.machine_hour_rate
  let base_cost := material_cost + machine_cost
  let post_cost := base_cost * cfg.post_rate
  let finish_cost := base_cost * cfg.finish_rate
  let painting_cost : ℚ := if add_painting then 0 else 0
  let total_cost_before_markup := base_cost + post_cost + finish_cost + painting_cost
  let markup_factor := _get_markup_factor cfg eff_volume_ml
  let price_ht_plate := total_cost_before_markup * markup_factor
  let packaging_cost := _get_packaging_cost cfg eff_volume_ml
  let bag_cost := bag_price * (q : ℚ)
  let shipping_cost :=
    if shipping_method = "retrait" then cfg.shipping_retrait else cfg.shipping_delivery
  let total_ht := price_ht_plate + packaging_cost + bag_cost + shipping_cost
  let vat := total_ht * cfg.tva_rate
  let total_ttc := total_ht + vat
  { material_cost := material_cost
    machine_cost := machine_cost
    base_cost := base_cost
    post_cost := post_cost
    finish_cost := finish_cost
    painting_cost := painting_cost
    total_cost_before_markup := total_cost_before_markup
    markup_factor := markup_factor
    price_ht_plate := price_ht_plate
    packaging_cost := packaging_cost
    bag_cost := bag_cost
    shipping_cost := shipping_cost
    total_ht := total_ht
    vat := vat
    total_ttc := total_ttc
    volume_with_supports_ml := volume_with_supports_ml
    print_time_minutes := machine_time_hours * 60 }

/-- Embedding of `compute_quote` (quote_engine.py lines 254-362).  The
quantity is clamped to a minimum of 1; an unknown material raises; the
machine-time estimate may raise `ZeroDivisionError` on the dimension path;
otherwise the full breakdown is returned. -/
def compute_quote (cfg : Config) (volume_ml : ℚ)
    (material_name type_piece_name typology_name : String) (quantity : ℤ)
    (shipping_method : String) (add_painting : Bool)
    (largest_dimension_mm : Option ℚ) : Except QuoteError Breakdown :=
  let q : ℤ := clampQuantity quantity
  match cfg.materials material_name with
  | none => .error (.unknownMaterial material_name)
  | some price_per_ml_with_loss =>
      let type_factor := (cfg.type_pieces type_piece_name).getD 1
      let support_percent := (cfg.material_support_percent material_name).getD 0
      let volume_with_supports_ml := volume_ml * (q : ℚ) * (1 + support_percent / 100)
      match machineTimeHours cfg material_name volume_with_supports_ml type_factor
          largest_dimension_mm with
      | .error e => .error e
      | .ok machine_time_hours =>
          .ok (quoteBreakdown cfg volume_ml type_piece_name typology_name quantity
            shipping_method add_painting support_percent price_per_ml_with_loss
            machine_time_hours)

/-! ## Specification-side definitions

These follow the wording of the specification (not the code) and are compared
with the code-derived definitions in the refinement theorems below. -/

/-- Modelled from the spec's step-function rule: "the applicable factor is
that of the highest threshold ≤ the input volume (default if the volume is
below all thresholds)".  For a table sorted ascending by threshold this is
the value of the last entry whose threshold is ≤ the probe. -/
def specStepLookup (dflt : ℚ) (table : List (ℚ × ℚ)) (v : ℚ) : ℚ :=
  match (table.filter fun e => e.1 ≤ v).getLast? with
  | none => dflt
  | some e => e.2

/-- Modelled from the spec's format-detection rule: the first bytes
case-insensitively begin with the text-mesh marker, and the facet token
appears within the 200-byte prefix window. -/
def TextFormatSpec (data : List Nat) : Prop :=
  solidMarker <+: data.map lowerByte ∧ facetToken <:+: data.take 200

/-- Chain condition on a tier table: starting from the default value, the
table's values are non-decreasing in table order.  This is the extra
hypothesis under which the step lookups are monotone in the probe volume. -/
def ValuesChain : ℚ → List (ℚ × ℚ) → Prop
  | _, [] => True
  | a, (_, f) :: rest => a ≤ f ∧ ValuesChain f rest

/-- Reversal of a facet's winding order by swapping its second and third
vertices. -/
def reverseFacet (f : Facet) : Facet :=
  (f.1, f.2.2, f.2.1)

/-! ## Concrete configurations used by witnesses and counterexamples -/

/-- A minimal configuration: every material known at unit price, no
type-piece/typology/support/speed entries, all rates zero except defaults. -/
def baseConfig : Config where
  materials := fun _ => some 1
  type_pieces := fun _ => none
  typologies := fun _ => none
  markup_table := []
  packaging_table := []
  post_rate := 0
  finish_rate := 0
  tva_rate := 0
  machine_hour_rate := 7
  machine_time_per_ml := 0
  shipping_retrait := 0
  shipping_delivery := 12
  material_support_percent := fun _ => none
  material_print_speed := fun _ => none
  time_factor := 1

/-- Configuration with a zero configured print speed for every material. -/
def cfgZeroSpeed : Config :=
  { baseConfig with material_print_speed := fun _ => some 0 }

/-- Configuration with a configured print speed of 20 tenths of mm/s. -/
def cfgSpeed20 : Config :=
  { baseConfig with material_print_speed := fun _ => some 20 }

/-- Configuration with material price 1/2 per ml (the spec's end-to-end
scenario). -/
def cfgHalfPrice : Config :=
  { baseConfig with materials := fun _ => some (1 / 2) }

/-- Configuration in which no material is known. -/
def cfgNoMat : Config :=
  { baseConfig with materials := fun _ => none }

/-- Configuration with a volume-decreasing markup tier (a bulk discount):
all factors are non-negative, but the factor drops from 2 to 1 at 100 ml. -/
def cfgBulk : Config :=
  { baseConfig with markup_table := [(0, 2), (100, 1)] }

/-- Configuration whose tier tables satisfy the chain conditions
(markup factors ≥ 1 and non-decreasing, packaging prices ≥ 0 and
non-decreasing). -/
def cfgChain : Config :=
  { baseConfig with
      markup_table := [(0, 1), (50, 6 / 5)]
      packaging_table := [(0, 0), (100, 3)] }

/-- Breakdown of `compute_quote cfgHalfPrice 10 _ _ _ 2 "retrait" false none`. -/
def bHalf : Breakdown :=
  ⟨10, 0, 10, 0, 0, 0, 10, 1, 10, 0, 0, 0, 10, 0, 10, 20, 0⟩

/-- Breakdown of `compute_quote baseConfig 1 _ _ _ 1 "Livraison" false none`. -/
def bShip : Breakdown :=
  ⟨1, 0, 1, 0, 0, 0, 1, 1, 1, 0, 0, 12, 13, 0, 13, 1, 0⟩

/-- Breakdown of `compute_quote baseConfig 1 _ _ _ 1 "retrait" false none`. -/
def bUnit : Breakdown :=
  ⟨1, 0, 1, 0, 0, 0, 1, 1, 1, 0, 0, 0, 1, 0, 1, 1, 0⟩

/-- Breakdown of `compute_quote baseConfig 3 _ _ _ 1 "retrait" _ none`. -/
def bThree : Breakdown :=
  ⟨3, 0, 3, 0, 0, 0, 3, 1, 3, 0, 0, 0, 3, 0, 3, 3, 0⟩

/-- Breakdown of `compute_quote cfgChain 10 _ _ _ 1 "retrait" false none`. -/
def bChain1 : Breakdown :=
  ⟨10, 0, 10, 0, 0, 0, 10, 1, 10, 0, 0, 0, 10, 0, 10, 10, 0⟩

/-- Breakdown of `compute_quote cfgChain 10 _ _ _ 2 "retrait" false none`. -/
def bChain2 : Breakdown :=
  ⟨20, 0, 20, 0, 0, 0, 20, 1, 20, 0, 0, 0, 20, 0, 20, 20, 0⟩

/-! ## Helper lemmas -/

/-- The signed-volume accumulation is the sum of the per-facet
contributions. -/
lemma sumSignedVolumes_eq_sum (fs : List Facet) :
    sumSignedVolumes fs =
      (fs.map fun f => signed_tetrahedron_volume f.1 f.2.1 f.2.2).sum := by
  rw [sumSignedVolumes, List.sum_eq_foldl, List.foldl_map]

/-- Unfolding one facet of the signed-volume accumulation. -/
lemma sumSignedVolumes_cons (f : Facet) (fs : List Facet) :
    sumSignedVolumes (f :: fs) =
      signed_tetrahedron_volume f.1 f.2.1 f.2.2 + sumSignedVolumes fs := by
  simp [sumSignedVolumes_eq_sum]

/-- Swapping the last two vertices negates the signed tetrahedron volume. -/
lemma signed_tetrahedron_volume_swap (v1 v2 v3 : Vertex) :
    signed_tetrahedron_volume v1 v3 v2 = -signed_tetrahedron_volume v1 v2 v3 := by
  simp only [signed_tetrahedron_volume]
  ring

/-- Boolean `startsWithSeq` agrees with `List.IsPrefix`. -/
lemma startsWithSeq_iff (n : List Nat) :
    ∀ h : List Nat, startsWithSeq n h = true ↔ n <+: h := by
  induction n with
  | nil =>
      intro h
      exact ⟨fun _ => List.nil_prefix, fun _ => rfl⟩
  | cons a as ih =>
      intro h
      cases h with
      | nil =>
          refine ⟨fun hf => absurd hf Bool.false_ne_true, fun hp => ?_⟩
          exact absurd (List.prefix_nil.mp hp) (List.cons_ne_nil a as)
      | cons b bs =>
          rw [show startsWithSeq (a :: as) (b :: bs) =
            (a == b && startsWithSeq as bs) from rfl]
          simp [Bool.and_eq_true, beq_iff_eq, ih bs, List.cons_prefix_cons]

/-- Boolean `containsSeq` agrees with `List.IsInfix`. -/
lemma containsSeq_iff (n : List Nat) :
    ∀ h : List Nat, containsSeq n h = true ↔ n <:+: h := by
  intro h
  induction h with
  | nil =>
      rw [show containsSeq n [] = n.isEmpty from rfl, List.isEmpty_iff]
      constructor
      · intro hn; rw [hn]
      · intro hn; exact List.eq_nil_of_infix_nil hn
  | cons b bs ih =>
      rw [show containsSeq n (b :: bs) =
        (startsWithSeq n (b :: bs) || containsSeq n bs) from rfl]
      simp [startsWithSeq_iff, ih, List.infix_cons_iff]

/-- The sorted step loop computes the value at the greatest threshold ≤ the
probe (the last matching entry), with the accumulator as default. -/
lemma stepLoop_eq_specStepLookup (v : ℚ) :
    ∀ table : List (ℚ × ℚ), table.Pairwise (fun a b => a.1 ≤ b.1) →
      ∀ acc : ℚ, stepLoop acc v table = specStepLookup acc table v := by
  intro table
  induction table with
  | nil => intro _ acc; simp [stepLoop, specStepLookup]
  | cons e r ih =>
      intro hpw acc
      obtain ⟨hall, hr⟩ := List.pairwise_cons.mp hpw
      obtain ⟨t, f⟩ := e
      by_cases h : t ≤ v
      · rw [show stepLoop acc v ((t, f) :: r) = stepLoop f v r from by
          simp [stepLoop, h], ih hr f]
        simp only [specStepLookup, List.filter_cons, decide_eq_true_eq, if_pos h]
        cases hfr : r.filter (fun e => decide (e.1 ≤ v)) with
        | nil => simp [hfr]
        | cons x xs =>
            simp only [hfr, List.getLast?_cons_cons]
            cases hgl : (x :: xs).getLast? with
            | none => exact absurd (List.getLast?_eq_none_iff.mp hgl) (by simp)
            | some e => simp
      · rw [show stepLoop acc v ((t, f) :: r) = acc from by simp [stepLoop, h]]
        have hnil : r.filter (fun e => decide (e.1 ≤ v)) = [] := by
          rw [List.filter_eq_nil_iff]
          intro e he
          simp only [decide_eq_true_eq]
          intro hle
          exact h (le_trans (hall e he) hle)
        simp [specStepLookup, List.filter_cons, h, hnil]

/-! ## Claim C5: reversing winding order leaves the volume unchanged -/

/-- Claim C5: for every list of facets, reversing the winding order of every
facet (swapping two vertices of each triangle) negates every signed
tetrahedron contribution, hence flips the sign of the accumulated sum, and
leaves the final volume `|sum| / 1000` unchanged. -/
theorem winding_reversal_preserves_volume (fs : List Facet) :
    sumSignedVolumes (fs.map reverseFacet) = -sumSignedVolumes fs ∧
    volumeFromFacets (fs.map reverseFacet) = volumeFromFacets fs := by
  have hsum : sumSignedVolumes (fs.map reverseFacet) = -sumSignedVolumes fs := by
    induction fs with
    | nil => simp [sumSignedVolumes]
    | cons f t ih =>
        simp only [List.map_cons, sumSignedVolumes_cons, reverseFacet]
        rw [signed_tetrahedron_volume_swap, ih]
        ring
  refine ⟨hsum, ?_⟩
  simp only [volumeFromFacets, hsum, abs_neg]

/-! ## Claim C7: short binary payloads return the degenerate result -/

/-- Claim C7: every payload classified as binary whose total length is below
84 bytes yields volume 0 and bounding box (0, 0, 0); the extractor is total,
so no failure is raised. -/
theorem binary_short_payload_degenerate (pyFloat : List Nat → Option ℚ)
    (data : List Nat) (hb : detectFormat data = .binary)
    (hlen : data.length < 84) :
    compute_volume_and_bbox pyFloat data = (0, (0, 0, 0)) := by
  simp [compute_volume_and_bbox, hb, hlen]

/-- Witness for C7 at the empty payload. -/
theorem binary_short_payload_degenerate_witness :
    detectFormat [] = .binary ∧ ([] : List Nat).length < 84 ∧
    compute_volume_and_bbox (fun _ => none) [] = (0, (0, 0, 0)) :=
  ⟨by decide, by decide,
    binary_short_payload_degenerate (fun _ => none) [] (by decide) (by decide)⟩

/-! ## Claim C8: format detection -/

/-- Claim C8: a payload is parsed as the text format exactly when its first
bytes case-insensitively begin with `solid` and the token `facet` occurs in
the 200-byte prefix window; every other payload is parsed as binary. -/
theorem format_detection_matches_spec (data : List Nat) :
    (detectFormat data = .text ↔ TextFormatSpec data) ∧
    (detectFormat data = .binary ↔ ¬ TextFormatSpec data) := by
  have hmt : (data.map lowerByte).take 5 = (data.take 5).map lowerByte :=
    (List.map_take ..).symm
  have hcond : (((data.take 5).map lowerByte == solidMarker)
      && containsSeq facetToken (data.take 200)) = true ↔ TextFormatSpec data := by
    rw [Bool.and_eq_true, beq_iff_eq, containsSeq_iff]
    unfold TextFormatSpec
    constructor
    · rintro ⟨h1, h2⟩
      refine ⟨List.prefix_iff_eq_take.mpr ?_, h2⟩
      show solidMarker = (data.map lowerByte).take 5
      rw [hmt, h1]
    · rintro ⟨h1, h2⟩
      refine ⟨?_, h2⟩
      have := List.prefix_iff_eq_take.mp h1
      rw [show solidMarker.length = 5 from rfl, hmt] at this
      exact this.symm
  constructor
  · rw [detectFormat]
    split_ifs with h
    · simp only [true_iff]
      exact hcond.mp h
    · constructor
      · intro hbt
        exact absurd hbt (by decide)
      · intro hspec
        exact absurd (hcond.mpr hspec) h
  · rw [detectFormat]
    split_ifs with h
    · constructor
      · intro htb
        exact absurd htb (by decide)
      · intro hns
        exact absurd (hcond.mp h) hns
    · simp only [true_iff]
      intro hspec
      exact h (hcond.mpr hspec)

/-- Witness for C8: `b"solid facet"` is classified as text, and the empty
payload as binary, via the detection theorem. -/
theorem format_detection_matches_spec_witness :
    detectFormat [115, 111, 108, 105, 100, 32, 102, 97, 99, 101, 116] = .text ∧
    detectFormat [] = .binary :=
  ⟨(format_detection_matches_spec _).1.mpr
      ⟨⟨[32, 102, 97, 99, 101, 116], by decide⟩,
       ⟨[115, 111, 108, 105, 100, 32], [], by decide⟩⟩,
    (format_detection_matches_spec []).2.mpr (by
      rintro ⟨h, -⟩
      exact absurd (List.prefix_nil.mp (by simpa using h)) (by decide))⟩

/-! ## Claim C3: step lookups pick the highest threshold at or below the probe -/

/-- Claim C3: on a table sorted ascending by threshold, the markup lookup
returns the factor of the highest threshold ≤ the probe volume (default 1.0
below every threshold), and the packaging lookup the price of the highest
threshold ≤ the probe (default 0.0); at a probe exactly equal to a threshold
the entry at that threshold applies. -/
theorem step_lookup_right_continuous (cfg : Config) (v : ℚ) :
    (cfg.markup_table.Pairwise (fun a b => a.1 ≤ b.1) →
      _get_markup_factor cfg v = specStepLookup 1 cfg.markup_table v) ∧
    (cfg.packaging_table.Pairwise (fun a b => a.1 ≤ b.1) →
      _get_packaging_cost cfg v = specStepLookup 0 cfg.packaging_table v) :=
  ⟨fun h => stepLoop_eq_specStepLookup v cfg.markup_table h 1,
   fun h => stepLoop_eq_specStepLookup v cfg.packaging_table h 0⟩

/-- Tier tables for the C3 witness (the spec's own example table). -/
def cfgTier : Config :=
  { baseConfig with
      markup_table := [(0, 1), (50, 6 / 5)]
      packaging_table := [(0, 0), (100, 3)] }

/-- Witness for C3: at probe exactly 50, the (50, 1.2) tier applies. -/
theorem step_lookup_right_continuous_witness :
    _get_markup_factor cfgTier 50 = specStepLookup 1 cfgTier.markup_table 50 ∧
    specStepLookup 1 cfgTier.markup_table 50 = 6 / 5 ∧
    _get_packaging_cost cfgTier 50 = specStepLookup 0 cfgTier.packaging_table 50 := by
  have h := step_lookup_right_continuous cfgTier 50
  refine ⟨h.1 ?_, ?_, h.2 ?_⟩
  · simp only [cfgTier, List.pairwise_cons]
    norm_num
  · norm_num [specStepLookup, cfgTier, List.filter]
  · simp only [cfgTier, List.pairwise_cons]
    norm_num

/-! ## Quote-engine helper lemmas -/

/-- With no largest dimension, the machine-time estimate is the volume-based
fallback and never fails. -/
lemma machineTimeHours_none (cfg : Config) (mat : String) (vws tf : ℚ) :
    machineTimeHours cfg mat vws tf none =
      .ok (vws * cfg.machine_time_per_ml * tf) := rfl

/-- With a largest dimension and a nonzero print speed, the machine-time
estimate is the travel-distance formula. -/
lemma machineTimeHours_some (cfg : Config) (mat : String) (vws tf d : ℚ)
    (h : speed_mm_s cfg mat ≠ 0) :
    machineTimeHours cfg mat vws tf (some d) =
      .ok (d * cfg.time_factor / speed_mm_s cfg mat / 3600) := by
  simp only [machineTimeHours, if_neg h]

/-- With a largest dimension and a zero print speed, the machine-time
estimate raises `ZeroDivisionError`. -/
lemma machineTimeHours_some_zero (cfg : Config) (mat : String) (vws tf d : ℚ)
    (h : speed_mm_s cfg mat = 0) :
    machineTimeHours cfg mat vws tf (some d) = .error .zeroDivisionError := by
  simp only [machineTimeHours, if_pos h]

/-- The only error the machine-time estimate can produce is
`ZeroDivisionError`. -/
lemma machineTimeHours_error (cfg : Config) (mat : String) (vws tf : ℚ)
    (ld : Option ℚ) (e : QuoteError)
    (h : machineTimeHours cfg mat vws tf ld = .error e) :
    e = .zeroDivisionError := by
  cases ld with
  | none => simp [machineTimeHours] at h
  | some d =>
      by_cases hs : speed_mm_s cfg mat = 0
      · rw [machineTimeHours_some_zero cfg mat vws tf d hs] at h
        exact (Except.error.inj h).symm
      · rw [machineTimeHours_some cfg mat vws tf d hs] at h
        exact absurd h (by simp)

/-- `compute_quote` on an unknown material. -/
lemma compute_quote_none (cfg : Config) (v : ℚ) (mat tp ty : String) (q : ℤ)
    (sm : String) (ap : Bool) (ld : Option ℚ)
    (hm : cfg.materials mat = none) :
    compute_quote cfg v mat tp ty q sm ap ld = .error (.unknownMaterial mat) := by
  simp [compute_quote, hm]

/-- `compute_quote` on a known material: the result is the machine-time
estimate mapped through the breakdown constructor. -/
lemma compute_quote_some (cfg : Config) (v : ℚ) (mat tp ty : String) (q : ℤ)
    (sm : String) (ap : Bool) (ld : Option ℚ) (p : ℚ)
    (hm : cfg.materials mat = some p) :
    compute_quote cfg v mat tp ty q sm ap ld =
      (machineTimeHours cfg mat
          (v * ((clampQuantity q : ℤ) : ℚ) *
            (1 + (cfg.material_support_percent mat).getD 0 / 100))
          ((cfg.type_pieces tp).getD 1) ld).map
        (quoteBreakdown cfg v tp ty q sm ap
          ((cfg.material_support_percent mat).getD 0) p) := by
  simp only [compute_quote, hm]
  cases hmt : machineTimeHours cfg mat
      (v * ((clampQuantity q : ℤ) : ℚ) *
        (1 + (cfg.material_support_percent mat).getD 0 / 100))
      ((cfg.type_pieces tp).getD 1) ld with
  | error e => simp [Except.map]
  | ok mth => simp [Except.map]

/-- The accumulator bounds the sorted step loop from below when the chain
condition holds. -/
lemma stepLoop_ge_acc (v : ℚ) :
    ∀ (l : List (ℚ × ℚ)) (a : ℚ), ValuesChain a l → a ≤ stepLoop a v l := by
  intro l
  induction l with
  | nil => intro a _; simp [stepLoop]
  | cons e r ih =>
      intro a hch
      obtain ⟨t, f⟩ := e
      obtain ⟨haf, hchf⟩ := hch
      rw [stepLoop]
      split_ifs with h
      · exact le_trans haf (ih f hchf)
      · exact le_refl a

/-- The step loop is monotone in the probe under the chain condition. -/
lemma stepLoop_mono (v1 v2 : ℚ) (hv : v1 ≤ v2) :
    ∀ (l : List (ℚ × ℚ)) (a : ℚ), ValuesChain a l →
      stepLoop a v1 l ≤ stepLoop a v2 l := by
  intro l
  induction l with
  | nil => intro a _; simp [stepLoop]
  | cons e r ih =>
      intro a hch
      obtain ⟨t, f⟩ := e
      obtain ⟨haf, hchf⟩ := hch
      rw [stepLoop, stepLoop]
      split_ifs with h1 h2
      · exact ih f hchf
      · exact absurd (le_trans h1 hv) h2
      · exact le_trans haf (stepLoop_ge_acc v2 r f hchf)
      · exact le_refl a

/-! ## Claim C6: quantity clamping, effective volume, material cost -/

/-- Claim C6: the quantity is clamped to a minimum of 1, the effective
volume is `volume_ml × quantity`, the supported volume multiplies it by
`1 + support_percent/100`, and the material cost multiplies that by the
material price and the type factor. -/
theorem quantity_clamped_volume_and_material_cost (cfg : Config) (v : ℚ)
    (mat tp ty : String) (q : ℤ) (sm : String) (ap : Bool) (ld : Option ℚ)
    (p : ℚ) (b : Breakdown)
    (hm : cfg.materials mat = some p)
    (hok : compute_quote cfg v mat tp ty q sm ap ld = .ok b) :
    b.volume_with_supports_ml =
      v * ((clampQuantity q : ℤ) : ℚ) *
        (1 + (cfg.material_support_percent mat).getD 0 / 100) ∧
    b.material_cost =
      b.volume_with_supports_ml * p * (cfg.type_pieces tp).getD 1 := by
  rw [compute_quote_some cfg v mat tp ty q sm ap ld p hm] at hok
  cases hmt : machineTimeHours cfg mat
      (v * ((clampQuantity q : ℤ) : ℚ) *
        (1 + (cfg.material_support_percent mat).getD 0 / 100))
      ((cfg.type_pieces tp).getD 1) ld with
  | error e => rw [hmt] at hok; simp [Except.map] at hok
  | ok mth =>
      rw [hmt] at hok
      simp only [Except.map, Except.ok.injEq] at hok
      subst hok
      exact ⟨rfl, rfl⟩

/-- Witness for C6: the spec's end-to-end scenario (volume 10 ml, quantity
2, price 0.5, support 0, type factor 1) gives supported volume 20 ml and
material cost 10. -/
theorem quantity_clamped_volume_and_material_cost_witness :
    (compute_quote cfgHalfPrice 10 "Grey" "Std" "Bag" 2 "retrait" false none).map
        Breakdown.volume_with_supports_ml = .ok 20 ∧
    (compute_quote cfgHalfPrice 10 "Grey" "Std" "Bag" 2 "retrait" false none).map
        Breakdown.material_cost = .ok 10 := by
  have hok : compute_quote cfgHalfPrice 10 "Grey" "Std" "Bag" 2 "retrait" false none =
      .ok bHalf := by
    norm_num [compute_quote, quoteBreakdown, machineTimeHours, speed_mm_s,
      clampQuantity, _get_markup_factor, _get_packaging_cost, stepLoop,
      cfgHalfPrice, baseConfig, bHalf]
  have h := quantity_clamped_volume_and_material_cost cfgHalfPrice 10 "Grey" "Std"
    "Bag" 2 "retrait" false none (1 / 2) bHalf rfl hok
  rw [hok]
  simp only [Except.map, Except.ok.injEq]
  refine ⟨?_, ?_⟩
  · rw [h.1]
    norm_num [clampQuantity, cfgHalfPrice, baseConfig]
  · rw [h.2, h.1]
    norm_num [clampQuantity, cfgHalfPrice, baseConfig]

/-! ## Claim C9: only the exact string "retrait" selects the pickup rate -/

/-- Claim C9: the shipping cost is the pickup rate exactly when
`shipping_method` is the string `"retrait"`; every other string — misspelled
or unrecognized — is silently charged the delivery rate, and changing the
shipping string never turns a successful quote into an error. -/
theorem shipping_requires_exact_pickup_string (cfg : Config) (v : ℚ)
    (mat tp ty : String) (q : ℤ) (sm : String) (ap : Bool) (ld : Option ℚ)
    (p : ℚ) (b : Breakdown)
    (hm : cfg.materials mat = some p)
    (hok : compute_quote cfg v mat tp ty q sm ap ld = .ok b) :
    b.shipping_cost =
      (if sm = "retrait" then cfg.shipping_retrait else cfg.shipping_delivery) ∧
    (sm ≠ "retrait" → b.shipping_cost = cfg.shipping_delivery) ∧
    (∀ sm' : String, ∃ b' : Breakdown,
      compute_quote cfg v mat tp ty q sm' ap ld = .ok b' ∧
      b'.shipping_cost =
        (if sm' = "retrait" then cfg.shipping_retrait else cfg.shipping_delivery)) := by
  rw [compute_quote_some cfg v mat tp ty q sm ap ld p hm] at hok
  cases hmt : machineTimeHours cfg mat
      (v * ((clampQuantity q : ℤ) : ℚ) *
        (1 + (cfg.material_support_percent mat).getD 0 / 100))
      ((cfg.type_pieces tp).getD 1) ld with
  | error e => rw [hmt] at hok; simp [Except.map] at hok
  | ok mth =>
      rw [hmt] at hok
      simp only [Except.map, Except.ok.injEq] at hok
      subst hok
      refine ⟨rfl, fun hne => ?_, fun sm' => ?_⟩
      · show (if sm = "retrait" then cfg.shipping_retrait else cfg.shipping_delivery) =
          cfg.shipping_delivery
        rw [if_neg hne]
      · rw [compute_quote_some cfg v mat tp ty q sm' ap ld p hm, hmt]
        exact ⟨_, rfl, rfl⟩

/-- Witness for C9: the unrecognized string "Livraison" (wrong case) is
charged the delivery rate 12 without any error. -/
theorem shipping_requires_exact_pickup_string_witness :
    (compute_quote baseConfig 1 "m" "t" "y" 1 "Livraison" false none).map
        Breakdown.shipping_cost = .ok 12 ∧
    "Livraison" ≠ "retrait" := by
  have hneq : ¬(("Livraison" : String) = "retrait") := by decide
  have hok : compute_quote baseConfig 1 "m" "t" "y" 1 "Livraison" false none =
      .ok bShip := by
    norm_num [compute_quote, quoteBreakdown, machineTimeHours, speed_mm_s,
      clampQuantity, _get_markup_factor, _get_packaging_cost, stepLoop,
      baseConfig, bShip, hneq]
  have h := shipping_requires_exact_pickup_string baseConfig 1 "m" "t" "y" 1
    "Livraison" false none 1 bShip rfl hok
  refine ⟨?_, by decide⟩
  rw [hok]
  simp only [Except.map, Except.ok.injEq]
  rw [h.2.1 (by decide)]
  rfl

/-! ## Claim C10: the add_painting flag has no effect -/

/-- Claim C10: the breakdown returned with `add_painting = true` equals the
breakdown returned with `add_painting = false` for every input, and the
`painting_cost` field of every returned breakdown is 0. -/
theorem add_painting_inert :
    (∀ (cfg : Config) (v : ℚ) (mat tp ty : String) (q : ℤ) (sm : String)
        (ld : Option ℚ),
      compute_quote cfg v mat tp ty q sm true ld =
        compute_quote cfg v mat tp ty q sm false ld) ∧
    (∀ (cfg : Config) (v : ℚ) (mat tp ty : String) (q : ℤ) (sm : String)
        (ap : Bool) (ld : Option ℚ) (b : Breakdown),
      compute_quote cfg v mat tp ty q sm ap ld = .ok b →
        b.painting_cost = 0) := by
  constructor
  · intro cfg v mat tp ty q sm ld
    cases hm : cfg.materials mat with
    | none =>
        rw [compute_quote_none cfg v mat tp ty q sm true ld hm,
          compute_quote_none cfg v mat tp ty q sm false ld hm]
    | some p =>
        rw [compute_quote_some cfg v mat tp ty q sm true ld p hm,
          compute_quote_some cfg v mat tp ty q sm false ld p hm]
        cases hmt : machineTimeHours cfg mat
            (v * ((clampQuantity q : ℤ) : ℚ) *
              (1 + (cfg.material_support_percent mat).getD 0 / 100))
            ((cfg.type_pieces tp).getD 1) ld with
        | error e => rfl
        | ok mth =>
            simp only [Except.map, Except.ok.injEq]
            simp [quoteBreakdown]
  · intro cfg v mat tp ty q sm ap ld b hok
    cases hm : cfg.materials mat with
    | none => rw [compute_quote_none cfg v mat tp ty q sm ap ld hm] at hok; simp at hok
    | some p =>
        rw [compute_quote_some cfg v mat tp ty q sm ap ld p hm] at hok
        cases hmt : machineTimeHours cfg mat
            (v * ((clampQuantity q : ℤ) : ℚ) *
              (1 + (cfg.material_support_percent mat).getD 0 / 100))
            ((cfg.type_pieces tp).getD 1) ld with
        | error e => rw [hmt] at hok; simp [Except.map] at hok
        | ok mth =>
            rw [hmt] at hok
            simp only [Except.map, Except.ok.injEq] at hok
            subst hok
            simp [quoteBreakdown]

/-- Witness for C10 at a concrete input. -/
theorem add_painting_inert_witness :
    compute_quote baseConfig 3 "m" "t" "y" 1 "retrait" true none =
      compute_quote baseConfig 3 "m" "t" "y" 1 "retrait" false none ∧
    (compute_quote baseConfig 3 "m" "t" "y" 1 "retrait" true none).map
        Breakdown.painting_cost = .ok 0 := by
  refine ⟨add_painting_inert.1 baseConfig 3 "m" "t" "y" 1 "retrait" none, ?_⟩
  have hok : compute_quote baseConfig 3 "m" "t" "y" 1 "retrait" true none =
      .ok bThree := by
    norm_num [compute_quote, quoteBreakdown, machineTimeHours, speed_mm_s,
      clampQuantity, _get_markup_factor, _get_packaging_cost, stepLoop,
      baseConfig, bThree]
  rw [hok]
  simp only [Except.map, Except.ok.injEq]
  exact add_painting_inert.2 baseConfig 3 "m" "t" "y" 1 "retrait" true none
    bThree hok

/-! ## Claim C1: the two machine-time estimation paths -/

/-- Claim C1 (amended): when `largest_dimension_mm` is given and the
material's configured print speed `s` (in tenths of mm/s) is nonzero, the
machine time in hours is `(largest_dimension_mm × time_factor) / (s/10)`
divided by 3600 (observed here through `print_time_minutes`, which is the
machine time in hours times 60); when `largest_dimension_mm` is absent the
machine time is `volume_with_supports × machine_time_per_ml × type_factor`
and that path never fails.  (The original claim's "neither path ever fails"
is refuted by `machine_time_zero_speed_raises`.) -/
theorem machine_time_estimate (cfg : Config) (v : ℚ) (mat tp ty : String)
    (q : ℤ) (sm : String) (ap : Bool) (p s : ℚ)
    (hm : cfg.materials mat = some p)
    (hs : cfg.material_print_speed mat = some s) (hs0 : s ≠ 0) :
    (∀ d : ℚ,
      (compute_quote cfg v mat tp ty q sm ap (some d)).map
          Breakdown.print_time_minutes =
        .ok (d * cfg.time_factor / (s / 10) / 3600 * 60)) ∧
    (compute_quote cfg v mat tp ty q sm ap none).map
        Breakdown.print_time_minutes =
      .ok (v * ((clampQuantity q : ℤ) : ℚ) *
            (1 + (cfg.material_support_percent mat).getD 0 / 100) *
          cfg.machine_time_per_ml * (cfg.type_pieces tp).getD 1 * 60) := by
  have hsp : speed_mm_s cfg mat = s / 10 := by rw [speed_mm_s, hs]
  have hsp0 : speed_mm_s cfg mat ≠ 0 := by
    rw [hsp]
    exact div_ne_zero hs0 (by norm_num)
  constructor
  · intro d
    rw [compute_quote_some cfg v mat tp ty q sm ap (some d) p hm,
      machineTimeHours_some cfg mat _ _ d hsp0]
    simp only [Except.map, Except.ok.injEq]
    rw [hsp]
    rfl
  · rw [compute_quote_some cfg v mat tp ty q sm ap none p hm,
      machineTimeHours_none]
    simp only [Except.map, Except.ok.injEq]
    rfl

/-- Witness for C1: with configured speed 20 (2 mm/s) and dimension 7200 mm
the print time is 60 minutes; the fallback path gives 0 minutes with a zero
per-ml machine time. -/
theorem machine_time_estimate_witness :
    (compute_quote cfgSpeed20 10 "m" "t" "y" 1 "retrait" false (some 7200)).map
        Breakdown.print_time_minutes = .ok 60 ∧
    (compute_quote cfgSpeed20 10 "m" "t" "y" 1 "retrait" false none).map
        Breakdown.print_time_minutes = .ok 0 := by
  have h := machine_time_estimate cfgSpeed20 10 "m" "t" "y" 1 "retrait" false
    1 20 rfl rfl (by norm_num)
  constructor
  · rw [h.1 7200]
    norm_num [cfgSpeed20, baseConfig]
  · rw [h.2]
    norm_num [cfgSpeed20, baseConfig]

/-- Counterexample to C1 as stated: with a configured print speed of zero,
the dimension-based path raises `ZeroDivisionError` even though the material
is present, so "neither path ever fails" is false. -/
theorem machine_time_zero_speed_raises :
    cfgZeroSpeed.materials "m" = some 1 ∧
    compute_quote cfgZeroSpeed 2 "m" "t" "y" 1 "retrait" false (some 100) =
      .error .zeroDivisionError := by
  refine ⟨rfl, ?_⟩
  norm_num [compute_quote, machineTimeHours, speed_mm_s, clampQuantity,
    cfgZeroSpeed, baseConfig]

/-! ## Claim C4: the unknown-material error and the silent category defaults -/

/-- Claim C4 (amended): `compute_quote` returns the unknown-material error
exactly when the material key is absent; when the material key is present
the computation succeeds provided the dimension-based path is not taken with
a zero print speed (the original "no exception is raised" is refuted by
`material_present_zero_speed_raises`); an unrecognized type-piece key is
priced with neutral factor 1 and an unrecognized typology key with bag price
0. -/
theorem unknown_material_error_iff :
    (∀ (cfg : Config) (v : ℚ) (mat tp ty : String) (q : ℤ) (sm : String)
        (ap : Bool) (ld : Option ℚ),
      cfg.materials mat = none →
        compute_quote cfg v mat tp ty q sm ap ld =
          .error (.unknownMaterial mat)) ∧
    (∀ (cfg : Config) (v : ℚ) (mat tp ty : String) (q : ℤ) (sm : String)
        (ap : Bool) (ld : Option ℚ) (n : String),
      compute_quote cfg v mat tp ty q sm ap ld = .error (.unknownMaterial n) →
        cfg.materials mat = none ∧ n = mat) ∧
    (∀ (cfg : Config) (v : ℚ) (mat tp ty : String) (q : ℤ) (sm : String)
        (ap : Bool) (p : ℚ),
      cfg.materials mat = some p →
        (∃ b, compute_quote cfg v mat tp ty q sm ap none = .ok b) ∧
        (speed_mm_s cfg mat ≠ 0 →
          ∀ d : ℚ, ∃ b, compute_quote cfg v mat tp ty q sm ap (some d) = .ok b)) ∧
    (∀ (cfg : Config) (v : ℚ) (mat tp ty : String) (q : ℤ) (sm : String)
        (ap : Bool) (ld : Option ℚ) (p : ℚ) (b : Breakdown),
      cfg.materials mat = some p → cfg.type_pieces tp = none →
        compute_quote cfg v mat tp ty q sm ap ld = .ok b →
        b.material_cost = b.volume_with_supports_ml * p) ∧
    (∀ (cfg : Config) (v : ℚ) (mat tp ty : String) (q : ℤ) (sm : String)
        (ap : Bool) (ld : Option ℚ) (p : ℚ) (b : Breakdown),
      cfg.materials mat = some p → cfg.typologies ty = none →
        compute_quote cfg v mat tp ty q sm ap ld = .ok b →
        b.bag_cost = 0) := by
  refine ⟨?_, ?_, ?_, ?_, ?_⟩
  · intro cfg v mat tp ty q sm ap ld hm
    exact compute_quote_none cfg v mat tp ty q sm ap ld hm
  · intro cfg v mat tp ty q sm ap ld n hok
    cases hm : cfg.materials mat with
    | none =>
        rw [compute_quote_none cfg v mat tp ty q sm ap ld hm] at hok
        exact ⟨rfl, (QuoteError.unknownMaterial.inj (Except.error.inj hok)).symm⟩
    | some p =>
        rw [compute_quote_some cfg v mat tp ty q sm ap ld p hm] at hok
        cases hmt : machineTimeHours cfg mat
            (v * ((clampQuantity q : ℤ) : ℚ) *
              (1 + (cfg.material_support_percent mat).getD 0 / 100))
            ((cfg.type_pieces tp).getD 1) ld with
        | error e =>
            rw [hmt] at hok
            simp only [Except.map, Except.error.injEq] at hok
            rw [machineTimeHours_error cfg mat _ _ ld e hmt] at hok
            exact absurd hok (by simp)
        | ok mth => rw [hmt] at hok; simp [Except.map] at hok
  · intro cfg v mat tp ty q sm ap p hm
    constructor
    · rw [compute_quote_some cfg v mat tp ty q sm ap none p hm,
        machineTimeHours_none]
      exact ⟨_, rfl⟩
    · intro hsp d
      rw [compute_quote_some cfg v mat tp ty q sm ap (some d) p hm,
        machineTimeHours_some cfg mat _ _ d hsp]
      exact ⟨_, rfl⟩
  · intro cfg v mat tp ty q sm ap ld p b hm htp hok
    rw [compute_quote_some cfg v mat tp ty q sm ap ld p hm] at hok
    cases hmt : machineTimeHours cfg mat
        (v * ((clampQuantity q : ℤ) : ℚ) *
          (1 + (cfg.material_support_percent mat).getD 0 / 100))
        ((cfg.type_pieces tp).getD 1) ld with
    | error e => rw [hmt] at hok; simp [Except.map] at hok
    | ok mth =>
        rw [hmt] at hok
        simp only [Except.map, Except.ok.injEq] at hok
        subst hok
        simp [quoteBreakdown, htp]
  · intro cfg v mat tp ty q sm ap ld p b hm hty hok
    rw [compute_quote_some cfg v mat tp ty q sm ap ld p hm] at hok
    cases hmt : machineTimeHours cfg mat
        (v * ((clampQuantity q : ℤ) : ℚ) *
          (1 + (cfg.material_support_percent mat).getD 0 / 100))
        ((cfg.type_pieces tp).getD 1) ld with
    | error e => rw [hmt] at hok; simp [Except.map] at hok
    | ok mth =>
        rw [hmt] at hok
        simp only [Except.map, Except.ok.injEq] at hok
        subst hok
        simp [quoteBreakdown, hty]

/-- Witness for C4: an unknown material is rejected with the unknown-material
error, and an unrecognized typology key yields bag cost 0. -/
theorem unknown_material_error_iff_witness :
    compute_quote cfgNoMat 1 "m" "t" "y" 1 "retrait" false none =
      .error (.unknownMaterial "m") ∧
    (compute_quote baseConfig 1 "m" "t" "y" 1 "retrait" false none).map
        Breakdown.bag_cost = .ok 0 := by
  refine ⟨unknown_material_error_iff.1 cfgNoMat 1 "m" "t" "y" 1 "retrait"
    false none rfl, ?_⟩
  have hok : compute_quote baseConfig 1 "m" "t" "y" 1 "retrait" false none =
      .ok bUnit := by
    norm_num [compute_quote, quoteBreakdown, machineTimeHours, speed_mm_s,
      clampQuantity, _get_markup_factor, _get_packaging_cost, stepLoop,
      baseConfig, bUnit]
  rw [hok]
  simp only [Except.map, Except.ok.injEq]
  exact unknown_material_error_iff.2.2.2.2 baseConfig 1 "m" "t" "y" 1 "retrait"
    false none 1 bUnit rfl rfl hok

/-- Counterexample to C4 as stated: the material key is present, yet
`compute_quote` still raises (`ZeroDivisionError`) on the dimension-based
path with a zero configured print speed. -/
theorem material_present_zero_speed_raises :
    cfgZeroSpeed.materials "pla" = some 1 ∧
    compute_quote cfgZeroSpeed 1 "pla" "t" "y" 2 "retrait" false (some 50) =
      .error .zeroDivisionError := by
  refine ⟨rfl, ?_⟩
  norm_num [compute_quote, machineTimeHours, speed_mm_s, clampQuantity,
    cfgZeroSpeed, baseConfig]

/-! ## Claim C2: monotonicity in quantity -/

/-- Counterexample to C2 as stated: with the bulk-discount markup table
`[(0, 2), (100, 1)]` — all factors non-negative — the `price_ht_plate` field
drops from 180 at quantity 9 to 110 at quantity 11, so not every cost field
is monotone non-decreasing in quantity under non-negativity alone. -/
theorem bulk_discount_breaks_quantity_monotonicity :
    (compute_quote cfgBulk 10 "m" "t" "y" 9 "retrait" false none).map
        Breakdown.price_ht_plate = .ok 180 ∧
    (compute_quote cfgBulk 10 "m" "t" "y" 11 "retrait" false none).map
        Breakdown.price_ht_plate = .ok 110 ∧
    ¬((180 : ℚ) ≤ 110) := by
  refine ⟨?_, ?_, by norm_num⟩ <;>
    norm_num [compute_quote, quoteBreakdown, machineTimeHours, speed_mm_s,
      clampQuantity, _get_markup_factor, _get_packaging_cost, stepLoop,
      cfgBulk, baseConfig, Except.map]

/-- Monotonicity of every breakdown field in the clamped quantity, given
non-negative rates, chain-monotone tier tables, and machine-time bounds. -/
lemma quoteBreakdown_mono_fields (cfg : Config) (v : ℚ) (tp ty : String)
    (q1 q2 : ℤ) (sm : String) (ap : Bool) (spct p mth1 mth2 : ℚ)
    (hv : 0 ≤ v) (hp : 0 ≤ p)
    (htf : 0 ≤ (cfg.type_pieces tp).getD 1)
    (hbag : 0 ≤ (cfg.typologies ty).getD 0)
    (hsp : 0 ≤ spct)
    (hpost : 0 ≤ cfg.post_rate) (hfin : 0 ≤ cfg.finish_rate)
    (htva : 0 ≤ cfg.tva_rate) (hmhr : 0 ≤ cfg.machine_hour_rate)
    (hmk : ValuesChain 1 cfg.markup_table)
    (hpk : ValuesChain 0 cfg.packaging_table)
    (hq : q1 ≤ q2)
    (hmt : mth1 ≤ mth2) (hmt1 : 0 ≤ mth1) (hmt2 : 0 ≤ mth2) :
    let b1 := quoteBreakdown cfg v tp ty q1 sm ap spct p mth1
    let b2 := quoteBreakdown cfg v tp ty q2 sm ap spct p mth2
    b1.material_cost ≤ b2.material_cost ∧
    b1.machine_cost ≤ b2.machine_cost ∧
    b1.base_cost ≤ b2.base_cost ∧
    b1.post_cost ≤ b2.post_cost ∧
    b1.finish_cost ≤ b2.finish_cost ∧
    b1.painting_cost ≤ b2.painting_cost ∧
    b1.total_cost_before_markup ≤ b2.total_cost_before_markup ∧
    b1.markup_factor ≤ b2.markup_factor ∧
    b1.price_ht_plate ≤ b2.price_ht_plate ∧
    b1.packaging_cost ≤ b2.packaging_cost ∧
    b1.bag_cost ≤ b2.bag_cost ∧
    b1.shipping_cost ≤ b2.shipping_cost ∧
    b1.total_ht ≤ b2.total_ht ∧
    b1.vat ≤ b2.vat ∧
    b1.total_ttc ≤ b2.total_ttc ∧
    b1.volume_with_supports_ml ≤ b2.volume_with_supports_ml ∧
    b1.print_time_minutes ≤ b2.print_time_minutes := by
  intro b1 b2
  have hcz : clampQuantity q1 ≤ clampQuantity q2 := by
    unfold clampQuantity
    split_ifs <;> omega
  have hcz1 : (1 : ℤ) ≤ clampQuantity q1 := by
    unfold clampQuantity
    split_ifs <;> omega
  have hcz2 : (1 : ℤ) ≤ clampQuantity q2 := by
    unfold clampQuantity
    split_ifs <;> omega
  have hc : ((clampQuantity q1 : ℤ) : ℚ) ≤ ((clampQuantity q2 : ℤ) : ℚ) := by
    exact_mod_cast hcz
  have hc1 : (0 : ℚ) ≤ ((clampQuantity q1 : ℤ) : ℚ) := by
    have : (1 : ℚ) ≤ ((clampQuantity q1 : ℤ) : ℚ) := by exact_mod_cast hcz1
    linarith
  have hc2 : (0 : ℚ) ≤ ((clampQuantity q2 : ℤ) : ℚ) := by
    have : (1 : ℚ) ≤ ((clampQuantity q2 : ℤ) : ℚ) := by exact_mod_cast hcz2
    linarith
  have hE : v * ((clampQuantity q1 : ℤ) : ℚ) ≤ v * ((clampQuantity q2 : ℤ) : ℚ) :=
    mul_le_mul_of_nonneg_left hc hv
  have hE1 : 0 ≤ v * ((clampQuantity q1 : ℤ) : ℚ) := mul_nonneg hv hc1
  have hE2 : 0 ≤ v * ((clampQuantity q2 : ℤ) : ℚ) := mul_nonneg hv hc2
  have hk0 : 0 ≤ 1 + spct / 100 := by
    have : 0 ≤ spct / 100 := div_nonneg hsp (by norm_num)
    linarith
  have hW : v * ((clampQuantity q1 : ℤ) : ℚ) * (1 + spct / 100) ≤
      v * ((clampQuantity q2 : ℤ) : ℚ) * (1 + spct / 100) :=
    mul_le_mul_of_nonneg_right hE hk0
  have hW1 : 0 ≤ v * ((clampQuantity q1 : ℤ) : ℚ) * (1 + spct / 100) :=
    mul_nonneg hE1 hk0
  have hW2 : 0 ≤ v * ((clampQuantity q2 : ℤ) : ℚ) * (1 + spct / 100) :=
    mul_nonneg hE2 hk0
  have hMC : v * ((clampQuantity q1 : ℤ) : ℚ) * (1 + spct / 100) * p *
        (cfg.type_pieces tp).getD 1 ≤
      v * ((clampQuantity q2 : ℤ) : ℚ) * (1 + spct / 100) * p *
        (cfg.type_pieces tp).getD 1 :=
    mul_le_mul_of_nonneg_right (mul_le_mul_of_nonneg_right hW hp) htf
  have hMC1 : 0 ≤ v * ((clampQuantity q1 : ℤ) : ℚ) * (1 + spct / 100) * p *
      (cfg.type_pieces tp).getD 1 := mul_nonneg (mul_nonneg hW1 hp) htf
  have hMC2 : 0 ≤ v * ((clampQuantity q2 : ℤ) : ℚ) * (1 + spct / 100) * p *
      (cfg.type_pieces tp).getD 1 := mul_nonneg (mul_nonneg hW2 hp) htf
  have hMach : mth1 * cfg.machine_hour_rate ≤ mth2 * cfg.machine_hour_rate :=
    mul_le_mul_of_nonneg_right hmt hmhr
  have hMach1 : 0 ≤ mth1 * cfg.machine_hour_rate := mul_nonneg hmt1 hmhr
  have hMach2 : 0 ≤ mth2 * cfg.machine_hour_rate := mul_nonneg hmt2 hmhr
  have hB := add_le_add hMC hMach
  have hB1 := add_nonneg hMC1 hMach1
  have hB2 := add_nonneg hMC2 hMach2
  have hPost := mul_le_mul_of_nonneg_right hB hpost
  have hPost1 := mul_nonneg hB1 hpost
  have hPost2 := mul_nonneg hB2 hpost
  have hFin := mul_le_mul_of_nonneg_right hB hfin
  have hFin1 := mul_nonneg hB1 hfin
  have hFin2 := mul_nonneg hB2 hfin
  have hPaint0 : 0 ≤ (if ap then (0 : ℚ) else 0) := by split_ifs <;> norm_num
  have hT := add_le_add (add_le_add (add_le_add hB hPost) hFin)
    (le_refl (if ap then (0 : ℚ) else 0))
  have hT1 := add_nonneg (add_nonneg (add_nonneg hB1 hPost1) hFin1) hPaint0
  have hT2 := add_nonneg (add_nonneg (add_nonneg hB2 hPost2) hFin2) hPaint0
  have hMkle : _get_markup_factor cfg (v * ((clampQuantity q1 : ℤ) : ℚ)) ≤
      _get_markup_factor cfg (v * ((clampQuantity q2 : ℤ) : ℚ)) :=
    stepLoop_mono _ _ hE cfg.markup_table 1 hmk
  have hMk1 : (1 : ℚ) ≤ _get_markup_factor cfg (v * ((clampQuantity q1 : ℤ) : ℚ)) :=
    stepLoop_ge_acc _ cfg.markup_table 1 hmk
  have hMk1_0 : (0 : ℚ) ≤ _get_markup_factor cfg (v * ((clampQuantity q1 : ℤ) : ℚ)) :=
    le_trans zero_le_one hMk1
  have hPrice := mul_le_mul hT hMkle hMk1_0 hT2
  have hPack : _get_packaging_cost cfg (v * ((clampQuantity q1 : ℤ) : ℚ)) ≤
      _get_packaging_cost cfg (v * ((clampQuantity q2 : ℤ) : ℚ)) :=
    stepLoop_mono _ _ hE cfg.packaging_table 0 hpk
  have hBagle : (cfg.typologies ty).getD 0 * ((clampQuantity q1 : ℤ) : ℚ) ≤
      (cfg.typologies ty).getD 0 * ((clampQuantity q2 : ℤ) : ℚ) :=
    mul_le_mul_of_nonneg_left hc hbag
  have hHT := add_le_add (add_le_add (add_le_add hPrice hPack) hBagle)
    (le_refl (if sm = "retrait" then cfg.shipping_retrait else cfg.shipping_delivery))
  have hVat := mul_le_mul_of_nonneg_right hHT htva
  have hTTC := add_le_add hHT hVat
  have hPTM : mth1 * 60 ≤ mth2 * 60 :=
    mul_le_mul_of_nonneg_right hmt (by norm_num)
  simp only [b1, b2, quoteBreakdown]
  exact ⟨hMC, hMach, hB, hPost, hFin, le_refl _, hT, hMkle, hPrice, hPack,
    hBagle, le_refl _, hHT, hVat, hTTC, hW, hPTM⟩

/-- Claim C2 (amended): with non-negative volume, rates, prices and factors,
a non-negative dimension and print speed on the dimension path, and — the
amendment forced by `bulk_discount_breaks_quantity_monotonicity` —
chain-monotone tier tables (markup factors non-decreasing starting at 1,
packaging prices non-decreasing starting at 0), every field of the returned
breakdown is monotone non-decreasing in the quantity. -/
theorem compute_quote_monotone_in_quantity (cfg : Config) (v : ℚ)
    (mat tp ty : String) (sm : String) (ap : Bool) (ld : Option ℚ)
    (q1 q2 : ℤ) (p : ℚ) (b1 b2 : Breakdown)
    (hm : cfg.materials mat = some p)
    (hv : 0 ≤ v) (hp : 0 ≤ p)
    (htf : 0 ≤ (cfg.type_pieces tp).getD 1)
    (hbag : 0 ≤ (cfg.typologies ty).getD 0)
    (hsp : 0 ≤ (cfg.material_support_percent mat).getD 0)
    (hpost : 0 ≤ cfg.post_rate) (hfin : 0 ≤ cfg.finish_rate)
    (htva : 0 ≤ cfg.tva_rate) (hmhr : 0 ≤ cfg.machine_hour_rate)
    (hmtp : 0 ≤ cfg.machine_time_per_ml)
    (hshipr : 0 ≤ cfg.shipping_retrait) (hshipd : 0 ≤ cfg.shipping_delivery)
    (htm : 0 ≤ cfg.time_factor) (hspd : 0 ≤ speed_mm_s cfg mat)
    (hld : ∀ d : ℚ, ld = some d → 0 ≤ d)
    (hmk : ValuesChain 1 cfg.markup_table)
    (hpk : ValuesChain 0 cfg.packaging_table)
    (hq : q1 ≤ q2)
    (h1 : compute_quote cfg v mat tp ty q1 sm ap ld = .ok b1)
    (h2 : compute_quote cfg v mat tp ty q2 sm ap ld = .ok b2) :
    b1.material_cost ≤ b2.material_cost ∧
    b1.machine_cost ≤ b2.machine_cost ∧
    b1.base_cost ≤ b2.base_cost ∧
    b1.post_cost ≤ b2.post_cost ∧
    b1.finish_cost ≤ b2.finish_cost ∧
    b1.painting_cost ≤ b2.painting_cost ∧
    b1.total_cost_before_markup ≤ b2.total_cost_before_markup ∧
    b1.markup_factor ≤ b2.markup_factor ∧
    b1.price_ht_plate ≤ b2.price_ht_plate ∧
    b1.packaging_cost ≤ b2.packaging_cost ∧
    b1.bag_cost ≤ b2.bag_cost ∧
    b1.shipping_cost ≤ b2.shipping_cost ∧
    b1.total_ht ≤ b2.total_ht ∧
    b1.vat ≤ b2.vat ∧
    b1.total_ttc ≤ b2.total_ttc ∧
    b1.volume_with_supports_ml ≤ b2.volume_with_supports_ml ∧
    b1.print_time_minutes ≤ b2.print_time_minutes := by
  rw [compute_quote_some cfg v mat tp ty q1 sm ap ld p hm] at h1
  rw [compute_quote_some cfg v mat tp ty q2 sm ap ld p hm] at h2
  have hcz1 : (1 : ℤ) ≤ clampQuantity q1 := by
    unfold clampQuantity
    split_ifs <;> omega
  have hcz2 : (1 : ℤ) ≤ clampQuantity q2 := by
    unfold clampQuantity
    split_ifs <;> omega
  have hc : ((clampQuantity q1 : ℤ) : ℚ) ≤ ((clampQuantity q2 : ℤ) : ℚ) := by
    have : clampQuantity q1 ≤ clampQuantity q2 := by
      unfold clampQuantity
      split_ifs <;> omega
    exact_mod_cast this
  have hc1 : (0 : ℚ) ≤ ((clampQuantity q1 : ℤ) : ℚ) := by
    have : (1 : ℚ) ≤ ((clampQuantity q1 : ℤ) : ℚ) := by exact_mod_cast hcz1
    linarith
  have hE : v * ((clampQuantity q1 : ℤ) : ℚ) ≤ v * ((clampQuantity q2 : ℤ) : ℚ) :=
    mul_le_mul_of_nonneg_left hc hv
  have hE1 : 0 ≤ v * ((clampQuantity q1 : ℤ) : ℚ) := mul_nonneg hv hc1
  have hk0 : 0 ≤ 1 + (cfg.material_support_percent mat).getD 0 / 100 := by
    have : 0 ≤ (cfg.material_support_percent mat).getD 0 / 100 :=
      div_nonneg hsp (by norm_num)
    linarith
  cases ld with
  | none =>
      rw [machineTimeHours_none] at h1 h2
      simp only [Except.map, Except.ok.injEq] at h1 h2
      subst h1
      subst h2
      have hW : v * ((clampQuantity q1 : ℤ) : ℚ) *
            (1 + (cfg.material_support_percent mat).getD 0 / 100) ≤
          v * ((clampQuantity q2 : ℤ) : ℚ) *
            (1 + (cfg.material_support_percent mat).getD 0 / 100) :=
        mul_le_mul_of_nonneg_right hE hk0
      have hW1 : 0 ≤ v * ((clampQuantity q1 : ℤ) : ℚ) *
          (1 + (cfg.material_support_percent mat).getD 0 / 100) :=
        mul_nonneg hE1 hk0
      have hW2 : 0 ≤ v * ((clampQuantity q2 : ℤ) : ℚ) *
          (1 + (cfg.material_support_percent mat).getD 0 / 100) :=
        le_trans hW1 hW
      exact quoteBreakdown_mono_fields cfg v tp ty q1 q2 sm ap
        ((cfg.material_support_percent mat).getD 0) p _ _
        hv hp htf hbag hsp hpost hfin htva hmhr hmk hpk hq
        (mul_le_mul_of_nonneg_right (mul_le_mul_of_nonneg_right hW hmtp) htf)
        (mul_nonneg (mul_nonneg hW1 hmtp) htf)
        (mul_nonneg (mul_nonneg hW2 hmtp) htf)
  | some d =>
      have hd : 0 ≤ d := hld d rfl
      by_cases hs : speed_mm_s cfg mat = 0
      · rw [machineTimeHours_some_zero cfg mat _ _ d hs] at h1
        simp [Except.map] at h1
      · rw [machineTimeHours_some cfg mat _ _ d hs] at h1
        rw [machineTimeHours_some cfg mat _ _ d hs] at h2
        simp only [Except.map, Except.ok.injEq] at h1 h2
        subst h1
        subst h2
        have hT0 : 0 ≤ d * cfg.time_factor / speed_mm_s cfg mat / 3600 :=
          div_nonneg (div_nonneg (mul_nonneg hd htm) hspd) (by norm_num)
        exact quoteBreakdown_mono_fields cfg v tp ty q1 q2 sm ap
          ((cfg.material_support_percent mat).getD 0) p _ _
          hv hp htf hbag hsp hpost hfin htva hmhr hmk hpk hq
          (le_refl _) hT0 hT0

/-- Witness for the amended C2 at a concrete chain-monotone configuration:
quantities 1 and 2 give totals 10 and 20. -/
theorem compute_quote_monotone_in_quantity_witness :
    bChain1.total_ttc ≤ bChain2.total_ttc ∧
    bChain1.price_ht_plate ≤ bChain2.price_ht_plate := by
  have h1 : compute_quote cfgChain 10 "m" "t" "y" 1 "retrait" false none =
      .ok bChain1 := by
    norm_num [compute_quote, quoteBreakdown, machineTimeHours, speed_mm_s,
      clampQuantity, _get_markup_factor, _get_packaging_cost, stepLoop,
      cfgChain, baseConfig, bChain1]
  have h2 : compute_quote cfgChain 10 "m" "t" "y" 2 "retrait" false none =
      .ok bChain2 := by
    norm_num [compute_quote, quoteBreakdown, machineTimeHours, speed_mm_s,
      clampQuantity, _get_markup_factor, _get_packaging_cost, stepLoop,
      cfgChain, baseConfig, bChain2]
  have h := compute_quote_monotone_in_quantity cfgChain 10 "m" "t" "y" "retrait"
    false none 1 2 1 bChain1 bChain2 rfl (by norm_num) (by norm_num)
    (by norm_num [cfgChain, baseConfig]) (by norm_num [cfgChain, baseConfig])
    (by norm_num [cfgChain, baseConfig]) (by norm_num [cfgChain, baseConfig])
    (by norm_num [cfgChain, baseConfig]) (by norm_num [cfgChain, baseConfig])
    (by norm_num [cfgChain, baseConfig]) (by norm_num [cfgChain, baseConfig])
    (by norm_num [cfgChain, baseConfig]) (by norm_num [cfgChain, baseConfig])
    (by norm_num [cfgChain, baseConfig])
    (by norm_num [speed_mm_s, cfgChain, baseConfig])
    (fun d hd => Option.noConfusion hd)
    (by simp only [cfgChain, ValuesChain]; norm_num)
    (by simp only [cfgChain, ValuesChain]; norm_num)
    (by norm_num) h1 h2
  obtain ⟨-, -, -, -, -, -, -, -, hPrice, -, -, -, -, -, hTTC, -, -⟩ := h
  exact ⟨hTTC, hPrice⟩

end Fersch3D
